import Mathlib

/-
  Verification of the Layer base class (src/src/layer/Layer.js) of the
  maptalks repository.  The JavaScript class is shallowly embedded:
  the mutable layer object becomes an explicit record `LayerState`,
  observable calls to collaborators (map, renderer, mask geometry,
  local event subscribers) become entries of an `Action` trace, and
  the two statements in the source that can throw are modelled with an
  `Option JsErr` component in the result.  JavaScript numbers appear
  only in order comparisons here, so they are modelled as `Int`.
-/

namespace Maptalks

/-- Event payload object.  JavaScript payloads are open records; the
fields actually read or written by Layer.js are modelled explicitly
(outer `Option` = field present on the object, inner value = the
JavaScript value, where `none` stands for nil), and `extra` stands for
any further caller data carried along unchanged. -/
structure Payload where
  typeF : Option String := none
  targetF : Bool := false
  oldF : Option (Option String) := none
  newF : Option (Option String) := none
  visibleF : Option (Option Bool) := none
  zIndexF : Option (Option Int) := none
  rendererRef : Bool := false
  extra : Nat := 0
deriving DecidableEq, Repr

/-- Spatial collision index (core/CollisionIndex).  Only identity and
emptiness are observable through Layer.js, so an instance is a unique
id plus its contents. -/
structure CollisionIndex where
  uid : Nat
  items : List Nat
deriving DecidableEq, Repr

/-- Entry of the map layer collection: a layer identity plus its
z-index (`none` = unset, read as 0 like `this._zIndex || 0`). -/
structure LayerRef where
  lid : Nat
  z : Option Int
deriving DecidableEq, Repr

/-- Owning map (viewport), reduced to the fields Layer.js reads. -/
structure MapView where
  minZoom : Int := 0
  maxZoom : Int := 25
  zoom : Int := 0
  zooming : Bool := false
  sharedCollision : CollisionIndex := { uid := 0, items := [] }
  layers : List LayerRef := []
deriving DecidableEq, Repr

/-- Mask geometry, reduced to what setMask reads and writes: the
geometry type tag, the vector-marker discriminator, the owner binding
and the symbol fields touched by the two restyle calls. -/
structure MaskGeom where
  gtype : String
  vectorMarker : Bool := false
  boundLayer : Bool := false
  markerLineColor : Option String := none
  markerFillOpacity : Option Int := none
  lineColor : Option String := none
  polygonOpacity : Option Int := none
deriving DecidableEq, Repr

/-- Observable effects of a layer operation, in execution order. -/
inductive Action where
  | forwardToMap (p : Payload)
  | localDispatch (ev : String) (p : Option Payload)
  | onceRenderend (ev : String)
  | rendererShow
  | rendererHide
  | rendererSetZIndex (z : Option Int)
  | rendererRender
  | rendererSetToRedraw
  | sortLayers
  | switchRendererEvents
  | rendererOnAdd
  | hookOnLoad (result : Bool)
  | hookOnLoadEnd
  | hookOnRendererCreate
  | maskBindLayer
  | maskUpdateSymbol
  | maskSetSymbol
deriving DecidableEq, Repr

/-- Errors thrown by Layer.js: the invalid-mask error of setMask, the
unknown-renderer error of initRenderer (carrying the configured kind
and the layer id), and the TypeError a renderer-less load would hit. -/
inductive JsErr where
  | invalidMask
  | unknownRenderer (kind : String) (layerId : Option String)
  | typeError
deriving DecidableEq, Repr

/-- The layer object.  Option-store entries keep their Layer.js
defaults; `map` is the attachment back-reference; `hasRenderer`,
`rendererIsCanvas` and `rendererHasSetToRedraw` describe the renderer
slot; `freshUid` feeds new collision-index identities. -/
structure LayerState where
  id : Option String := none
  zIndex : Option Int := none
  optZIndex : Option Int := none
  visible : Option Bool := some true
  opacity : Option Int := some 1
  minZoom : Option Int := none
  maxZoom : Option Int := none
  collisionScope : String := "layer"
  rendererKind : String := "canvas"
  map : Option MapView := none
  hasRenderer : Bool := false
  rendererIsCanvas : Bool := false
  rendererHasSetToRedraw : Bool := false
  mask : Option MaskGeom := none
  optMask : Option MaskGeom := none
  collisionIndex : Option CollisionIndex := none
  freshUid : Nat := 0
  loaded : Bool := false
deriving DecidableEq, Repr

/-- Stamp a payload with type and target, as the overridden fire does
before forwarding to the map. -/
def stampPayload (p : Payload) (ev : String) : Payload :=
  { p with typeF := some ev, targetF := true }

/-- One pass of the overridden Layer.prototype.fire (lines 639-651):
set the loaded flag on layerload, then, when attached, stamp the
payload and forward it to the map aggregator, then dispatch locally.
Returns the final value of the local `param` variable (the module is
strict-mode JavaScript: rebinding `param` does not change `arguments`,
so a nil payload stays nil for the local dispatch, while a non-nil
payload object is mutated in place and the dispatch sees the stamp). -/
def fireStep (s : LayerState) (ev : String) (param : Option Payload) :
    LayerState × Option Payload × List Action :=
  let s1 := if ev = "layerload" then { s with loaded := true } else s
  match s1.map with
  | some _ =>
      let fwd := stampPayload (param.getD {}) ev
      (s1, some fwd,
        [Action.forwardToMap fwd,
         Action.localDispatch ev (if param.isSome then some fwd else none)])
  | none => (s1, param, [Action.localDispatch ev param])

/-- The full overridden fire (lines 639-665): one pass for the event
itself, then, for show and hide, a second full pass firing a
visiblechange event whose payload merges the local `param` variable
with the current value of the visible option. -/
def fire (s : LayerState) (ev : String) (param : Option Payload) :
    LayerState × List Action :=
  let r1 := fireStep s ev param
  if ev = "show" ∨ ev = "hide" then
    let merged : Payload := { r1.2.1.getD {} with visibleF := some r1.1.visible }
    let r2 := fireStep r1.1 "visiblechange" (some merged)
    (r2.1, r1.2.2 ++ r2.2.2)
  else (r1.1, r1.2.2)

/-- Claim C1: firing an event on a layer first sets the loaded flag if
the type is layerload, then (when attached) stamps the payload with
type and target and forwards it to the map aggregator strictly before
the local dispatch, then dispatches locally, and finally, for show and
hide, fires a visiblechange event whose payload merges the original
payload with the current value of the visible option. -/
theorem fire_event_pipeline (s : LayerState) (ev : String) (param : Option Payload) :
    fire s ev param =
      ((if ev = "layerload" then { s with loaded := true } else s),
        match s.map with
        | none =>
            [Action.localDispatch ev param]
            ++ (if ev = "show" ∨ ev = "hide" then
                  [Action.localDispatch "visiblechange"
                    (some { param.getD {} with visibleF := some s.visible })]
                else [])
        | some _ =>
            let fwd := stampPayload (param.getD {}) ev
            [Action.forwardToMap fwd,
             Action.localDispatch ev (if param.isSome then some fwd else none)]
            ++ (if ev = "show" ∨ ev = "hide" then
                  let vc := stampPayload { fwd with visibleF := some s.visible } "visiblechange"
                  [Action.forwardToMap vc,
                   Action.localDispatch "visiblechange" (some vc)]
                else [])) := by
  have hload : ev = "show" ∨ ev = "hide" → ¬ ev = "layerload" := by
    rintro (rfl | rfl) h <;> exact absurd h (by decide)
  by_cases hsh : ev = "show" ∨ ev = "hide"
  · have hne : ¬ ev = "layerload" := hload hsh
    cases hm : s.map with
    | none =>
        simp [fire, fireStep, hm, hsh, hne, stampPayload]
    | some m =>
        cases param with
        | none => simp [fire, fireStep, hm, hsh, hne, stampPayload]
        | some p => simp [fire, fireStep, hm, hsh, hne, stampPayload]
  · cases hm : s.map with
    | none =>
        by_cases hne : ev = "layerload" <;>
          simp [fire, fireStep, hm, hsh, hne, stampPayload]
    | some m =>
        by_cases hne : ev = "layerload" <;>
          simp [fire, fireStep, hm, hsh, hne, stampPayload]

/-- Value of getZIndex (line 189): the stored z-index or 0, matching
the or-with-zero fallback (a stored 0 also reads as 0). -/
def getZIndexVal (s : LayerState) : Int := s.zIndex.getD 0

/-- getMinZoom (lines 196-200).  When attached the result is the max
of the map bound and the or-with-zero coercion of the layer bound; a
nil (or zero) layer bound contributes 0, matching the falsy fallback.
Detached layers return the raw option. -/
def getMinZoom (s : LayerState) : Option Int :=
  match s.map with
  | some m => some (max m.minZoom (s.minZoom.getD 0))
  | none => s.minZoom

/-- getMaxZoom (lines 206-210).  When attached, a nil layer bound is
replaced by positive infinity before taking the min with the map
bound, so it reduces to the map bound. -/
def getMaxZoom (s : LayerState) : Option Int :=
  match s.map with
  | some m =>
      some (match s.maxZoom with
            | none => m.maxZoom
            | some v => min m.maxZoom v)
  | none => s.maxZoom

/-- Written from the words of the specification, for comparison with
getMinZoom: clamp the layer bound against the map bound, min = max of
the two, with a nil layer bound treated as unbounded (imposing no
limit, so the result is the map bound alone). -/
def specClampedMinZoom (s : LayerState) : Option Int :=
  match s.map with
  | some m =>
      some (match s.minZoom with
            | none => m.minZoom
            | some v => max m.minZoom v)
  | none => s.minZoom

/-- Zoom test of isVisible (lines 383-387): the maxZoom option is not
nil and below the current zoom, or the minZoom option is not nil and
above it. -/
def outsideZoom (s : LayerState) (m : MapView) : Bool :=
  (match s.maxZoom with | some x => decide (x < m.zoom) | none => false) ||
  (match s.minZoom with | some y => decide (m.zoom < y) | none => false)

/-- isVisible (lines 377-394): false when opacity is a number at most
0; else, when attached, false when the map zoom falls outside the
layer zoom bounds (nil bounds unbounded); else the stored visible
option, materialized to true first when it was nil.  Returns the
value together with the possibly-updated state. -/
def isVisible (s : LayerState) : Bool × LayerState :=
  match s.opacity with
  | some o =>
      if o ≤ 0 then (false, s) else isVisibleAfterOpacity s
  | none => isVisibleAfterOpacity s
where
  isVisibleAfterOpacity (s : LayerState) : Bool × LayerState :=
    match s.map with
    | some m =>
        if outsideZoom s m then (false, s)
        else isVisibleMaterialize s
    | none => isVisibleMaterialize s
  isVisibleMaterialize (s : LayerState) : Bool × LayerState :=
    match s.visible with
    | none => (true, { s with visible := some true })
    | some v => (v, s)

/-- The Bool zoom test agrees with its propositional reading. -/
theorem outsideZoom_iff (s : LayerState) (m : MapView) :
    outsideZoom s m = true ↔
      ((∃ x, s.maxZoom = some x ∧ x < m.zoom) ∨
       (∃ y, s.minZoom = some y ∧ m.zoom < y)) := by
  unfold outsideZoom
  cases s.maxZoom <;> cases s.minZoom <;> simp

/-- show (lines 310-337; the Lean keyword forces the longer name):
a no-op when the visible option is already truthy; otherwise set the
flag, tell the renderer when one exists, then either register a
one-shot show on the renderend signal (renderer and map both present)
or fire show synchronously. -/
def showLayer (s : LayerState) : LayerState × List Action :=
  if s.visible = some true then (s, [])
  else
    let s1 := { s with visible := some true }
    let t1 := if s1.hasRenderer then [Action.rendererShow] else []
    if s1.hasRenderer && s1.map.isSome then
      (s1, t1 ++ [Action.onceRenderend "show"])
    else
      let r := fire s1 "show" none
      (r.1, t1 ++ r.2)

/-- hide (lines 343-371), symmetric to show: a no-op unless the
visible option is truthy. -/
def hideLayer (s : LayerState) : LayerState × List Action :=
  if s.visible = some true then
    let s1 := { s with visible := some false }
    let t1 := if s1.hasRenderer then [Action.rendererHide] else []
    if s1.hasRenderer && s1.map.isSome then
      (s1, t1 ++ [Action.onceRenderend "hide"])
    else
      let r := fire s1 "hide" none
      (r.1, t1 ++ r.2)
  else (s, [])

/-- Updating the visible field with its present value is the identity. -/
theorem visible_update_self (s : LayerState) (v : Bool) (h : s.visible = some v) :
    { s with visible := some v } = s := by
  cases s
  simp only [LayerState.mk.injEq] at h ⊢
  simp_all

/-- Claim C3: isVisible is false whenever opacity is a number at most
0, regardless of zoom or the visible flag; otherwise, when attached,
false when the map zoom lies outside the layer bounds, a nil bound
imposing no limit; otherwise it returns the stored visible option,
first materializing it to true when it was nil. -/
theorem isVisible_spec (s : LayerState) :
    (∀ o, s.opacity = some o → o ≤ 0 → isVisible s = (false, s))
    ∧ (∀ m, s.map = some m →
        (¬ ∃ o, s.opacity = some o ∧ o ≤ 0) →
        ((∃ x, s.maxZoom = some x ∧ x < m.zoom) ∨
         (∃ y, s.minZoom = some y ∧ m.zoom < y)) →
        isVisible s = (false, s))
    ∧ ((¬ ∃ o, s.opacity = some o ∧ o ≤ 0) →
        (∀ m, s.map = some m →
          ¬((∃ x, s.maxZoom = some x ∧ x < m.zoom) ∨
            (∃ y, s.minZoom = some y ∧ m.zoom < y))) →
        isVisible s = (s.visible.getD true, { s with visible := some (s.visible.getD true) })) := by
  refine ⟨?_, ?_, ?_⟩
  · intro o ho hle
    simp [isVisible, ho, hle]
  · intro m hm hop hout
    have hz : outsideZoom s m = true := (outsideZoom_iff s m).2 hout
    cases hopv : s.opacity with
    | none =>
        simp [isVisible, isVisible.isVisibleAfterOpacity, hm, hopv, hz]
    | some o =>
        have hpos : ¬ o ≤ 0 := fun hle => hop ⟨o, hopv, hle⟩
        simp [isVisible, isVisible.isVisibleAfterOpacity, hm, hopv, hpos, hz]
  · intro hop hin
    have hmat : isVisible.isVisibleMaterialize s =
        (s.visible.getD true, { s with visible := some (s.visible.getD true) }) := by
      cases hv : s.visible with
      | none => simp [isVisible.isVisibleMaterialize, hv]
      | some v =>
          simp [isVisible.isVisibleMaterialize, hv, visible_update_self s v hv]
    have hafter : isVisible.isVisibleAfterOpacity s =
        (s.visible.getD true, { s with visible := some (s.visible.getD true) }) := by
      cases hm : s.map with
      | none => simp [isVisible.isVisibleAfterOpacity, hm, hmat]
      | some m =>
          have hz : outsideZoom s m = false := by
            rcases hzv : outsideZoom s m with _ | _
            · rfl
            · exact absurd ((outsideZoom_iff s m).1 hzv) (hin m hm)
          simp [isVisible.isVisibleAfterOpacity, hm, hz, hmat]
    cases hopv : s.opacity with
    | none => simp [isVisible, hopv, hafter]
    | some o =>
        have hpos : ¬ o ≤ 0 := fun hle => hop ⟨o, hopv, hle⟩
        simp [isVisible, hopv, hpos, hafter]

/-- Closed witness for the hypotheses of isVisible_spec: a layer with
opacity 0 is invisible even though its visible flag is true. -/
theorem isVisible_spec_witness :
    isVisible { opacity := some 0 } = (false, { opacity := some 0 }) :=
  (isVisible_spec { opacity := some 0 }).1 0 rfl (by decide)

/-- Claim C2: show is a no-op when the visible option is already
truthy; otherwise it sets the flag, tells the renderer when one
exists, and fires the show event, synchronously unless a renderer and
a map both exist, in which case a one-shot show is registered on the
renderend signal of the map instead; hide is symmetric. -/
theorem show_hide_spec (s : LayerState) :
    (s.visible = some true → showLayer s = (s, []))
    ∧ (s.visible ≠ some true →
        showLayer s =
          (if s.hasRenderer && s.map.isSome then
            ({ s with visible := some true },
              [Action.rendererShow, Action.onceRenderend "show"])
          else
            ((fire { s with visible := some true } "show" none).1,
              (if s.hasRenderer then [Action.rendererShow] else [])
                ++ (fire { s with visible := some true } "show" none).2)))
    ∧ (s.visible ≠ some true → hideLayer s = (s, []))
    ∧ (s.visible = some true →
        hideLayer s =
          (if s.hasRenderer && s.map.isSome then
            ({ s with visible := some false },
              [Action.rendererHide, Action.onceRenderend "hide"])
          else
            ((fire { s with visible := some false } "hide" none).1,
              (if s.hasRenderer then [Action.rendererHide] else [])
                ++ (fire { s with visible := some false } "hide" none).2))) := by
  refine ⟨?_, ?_, ?_, ?_⟩
  · intro h; simp [showLayer, h]
  · intro h
    by_cases hd : s.hasRenderer && s.map.isSome
    · have hr : s.hasRenderer = true := by
        simp only [Bool.and_eq_true] at hd
        exact hd.1
      simp [showLayer, h, hd, hr]
    · simp [showLayer, h, hd]
  · intro h; simp [hideLayer, h]
  · intro h
    by_cases hd : s.hasRenderer && s.map.isSome
    · have hr : s.hasRenderer = true := by
        simp only [Bool.and_eq_true] at hd
        exact hd.1
      simp [hideLayer, h, hd, hr]
    · simp [hideLayer, h, hd]

/-- Closed witness for show_hide_spec: on a detached hidden layer
with no renderer, show sets the flag and synchronously fires show and
the derived visiblechange, and a second show is a no-op. -/
theorem show_hide_spec_witness :
    showLayer { visible := some false } =
      ({ visible := some true },
        [Action.localDispatch "show" none,
         Action.localDispatch "visiblechange"
           (some { visibleF := some (some true) })])
    ∧ showLayer { visible := some true } = ({ visible := some true }, []) := by
  constructor
  · have h := (show_hide_spec { visible := some false }).2.1 (by decide)
    rw [h]
    decide
  · exact (show_hide_spec { visible := some true }).1 rfl

/-- Claim C6 (amended): on an attached layer, getMaxZoom is the min
of the layer bound and the map bound with a nil layer bound treated
as unbounded, and is at most the map maxZoom; getMinZoom is the max
of the map bound and the layer bound with a nil layer bound treated
as zero rather than unbounded, and is at least the map minZoom; on a
detached layer both return the raw layer option. -/
theorem zoom_clamp_spec (s : LayerState) :
    (∀ m, s.map = some m →
        (∀ y, s.minZoom = some y → getMinZoom s = some (max m.minZoom y))
        ∧ (s.minZoom = none → getMinZoom s = some (max m.minZoom 0))
        ∧ (∀ v, getMinZoom s = some v → m.minZoom ≤ v)
        ∧ (∀ x, s.maxZoom = some x → getMaxZoom s = some (min m.maxZoom x))
        ∧ (s.maxZoom = none → getMaxZoom s = some m.maxZoom)
        ∧ (∀ v, getMaxZoom s = some v → v ≤ m.maxZoom))
    ∧ (s.map = none → getMinZoom s = s.minZoom ∧ getMaxZoom s = s.maxZoom) := by
  constructor
  · intro m hm
    refine ⟨?_, ?_, ?_, ?_, ?_, ?_⟩
    · intro y hy; simp [getMinZoom, hm, hy]
    · intro hy; simp [getMinZoom, hm, hy]
    · intro v hv
      simp only [getMinZoom, hm, Option.some.injEq] at hv
      omega
    · intro x hx; simp [getMaxZoom, hm, hx]
    · intro hx; simp [getMaxZoom, hm, hx]
    · intro v hv
      simp only [getMaxZoom, hm, Option.some.injEq] at hv
      cases hx : s.maxZoom with
      | none => rw [hx] at hv; simp at hv; omega
      | some x => rw [hx] at hv; simp at hv; omega
  · intro hm
    exact ⟨by simp [getMinZoom, hm], by simp [getMaxZoom, hm]⟩

/-- Attached layer over a map whose minZoom is negative, with a nil
layer minZoom. -/
def zoomCexLayer : LayerState :=
  { map := some { minZoom := -1, maxZoom := 25, zoom := 3 } }

/-- Closed witness for zoom_clamp_spec at zoomCexLayer. -/
theorem zoom_clamp_spec_witness :
    getMinZoom zoomCexLayer = some 0 ∧ getMaxZoom zoomCexLayer = some 25 := by
  have h := (zoom_clamp_spec zoomCexLayer).1
    { minZoom := -1, maxZoom := 25, zoom := 3 } rfl
  exact ⟨(h.2.1 rfl).trans (by decide), (h.2.2.2.2.1 rfl).trans (by decide)⟩

/-- Counterexample to claim C6 as stated: with a nil layer minZoom
the code substitutes 0, not an unbounded value, so over a map whose
minZoom is -1 the clamp reads 0 while the max of the two bounds with
nil unbounded would be the map bound -1. -/
theorem zoom_clamp_counterexample :
    getMinZoom zoomCexLayer = some 0
    ∧ specClampedMinZoom zoomCexLayer = some (-1)
    ∧ getMinZoom zoomCexLayer ≠ specClampedMinZoom zoomCexLayer := by
  refine ⟨by decide, by decide, by decide⟩

/-- setId (lines 120-141): a non-nil id is coerced to its string form
(the identity on strings, so the model stores the value as given),
a nil id is stored unchanged, and an idchange event carrying the old
and new values fires in every case. -/
def setId (s : LayerState) (idv : Option String) : LayerState × List Action :=
  let old := s.id
  let s1 := { s with id := idv }
  fire s1 "idchange" (some { oldF := some old, newF := some idv })

/-- setZIndex (lines 158-182): store the value, mirror it into the
option store (clearing the entry when nil), re-sort the map layer
collection when attached, push the value to the renderer when one
exists, and fire a setzindex event. -/
def setZIndex (s : LayerState) (z : Option Int) : LayerState × List Action :=
  let s1 := { s with zIndex := z, optZIndex := z }
  let t1 := (if s1.map.isSome then [Action.sortLayers] else [])
            ++ (if s1.hasRenderer then [Action.rendererSetZIndex z] else [])
  let r := fire s1 "setzindex" (some { zIndexF := some z })
  (r.1, t1 ++ r.2)

/-- Accepted mask kinds (line 421): a point with vector-marker
styling, a polygon, or a multi-polygon. -/
def acceptedMask (m : MaskGeom) : Bool :=
  (m.gtype == "Point" && m.vectorMarker) || m.gtype == "Polygon" || m.gtype == "MultiPolygon"

/-- Restyle applied by setMask to an accepted mask (lines 424-435):
bind the mask to the layer, then make it fully invisible, through
updateSymbol (merging the marker fields) for a point and through
setSymbol (replacing the whole symbol) otherwise. -/
def restyledMask (m : MaskGeom) : MaskGeom :=
  let m1 := { m with boundLayer := true }
  if m.gtype == "Point" then
    { m1 with markerLineColor := some "rgba(0, 0, 0, 0)", markerFillOpacity := some 0 }
  else
    { gtype := m1.gtype, vectorMarker := m1.vectorMarker, boundLayer := m1.boundLayer,
      markerLineColor := none, markerFillOpacity := none,
      lineColor := some "rgba(0, 0, 0, 0)", polygonOpacity := some 0 }

/-- Redraw request shared by setMask and removeMask (lines 438-444 and
455-461): nothing when detached or while the map is zooming, a
setToRedraw call when the renderer exists and implements it. -/
def maskRedraw (s : LayerState) : List Action :=
  match s.map with
  | none => []
  | some m =>
      if m.zooming then []
      else if s.hasRenderer && s.rendererHasSetToRedraw then [Action.rendererSetToRedraw]
      else []

/-- setMask (lines 420-446): reject a mask outside the accepted kinds
with the invalid-mask error before any mutation; otherwise bind and
restyle the mask, store the live geometry and its serialized form,
and request a redraw unless detached or mid-zoom. -/
def setMask (s : LayerState) (m : MaskGeom) : LayerState × List Action × Option JsErr :=
  if acceptedMask m then
    let m2 := restyledMask m
    let s1 := { s with mask := some m2, optMask := some m2 }
    (s1,
      [Action.maskBindLayer,
       if m.gtype == "Point" then Action.maskUpdateSymbol else Action.maskSetSymbol]
       ++ maskRedraw s1,
      none)
  else (s, [], some JsErr.invalidMask)

/-- removeMask (lines 452-463): clear both stored forms, then the
same conditional redraw request as setMask. -/
def removeMask (s : LayerState) : LayerState × List Action :=
  let s1 := { s with mask := none, optMask := none }
  (s1, maskRedraw s1)

/-- Options object accepted by the constructor, with the merged
defaults of the option store. -/
structure CtorOpts where
  zIndex : Option Int := none
  mask : Option MaskGeom := none
  visible : Option Bool := some true
  opacity : Option Int := some 1
  minZoom : Option Int := none
  maxZoom : Option Int := none
  collisionScope : String := "layer"
  renderer : String := "canvas"
deriving Repr

/-- Detached layer state seeded from the constructor options. -/
def baseState (opts : Option CtorOpts) : LayerState :=
  match opts with
  | none => {}
  | some o =>
      { visible := o.visible, opacity := o.opacity,
        minZoom := o.minZoom, maxZoom := o.maxZoom,
        collisionScope := o.collisionScope, rendererKind := o.renderer,
        optZIndex := o.zIndex }

/-- Constructor (lines 67-83): setId runs unconditionally; when an
options object was given, setZIndex runs with its zIndex entry (nil
or not) and, when a mask entry exists, setMask runs on the
deserialized geometry and its error propagates.  The canvas option
extraction and the options proxy have no observable effect here. -/
def mkLayer (idv : Option String) (opts : Option CtorOpts) :
    LayerState × List Action × Option JsErr :=
  let r1 := setId (baseState opts) idv
  match opts with
  | none => (r1.1, r1.2, none)
  | some o =>
      let r2 := setZIndex r1.1 o.zIndex
      match o.mask with
      | none => (r2.1, r1.2 ++ r2.2, none)
      | some mg =>
          let r3 := setMask r2.1 mg
          (r3.1, r1.2 ++ r2.2 ++ r3.2.1, r3.2.2)

/-- Claim C10: setId with a nil id stores the nil value unchanged and
still fires an idchange event carrying the old and new values, and,
because the constructor calls setId unconditionally, every layer
construction dispatches an idchange event, even with no id given. -/
theorem setid_nil_and_ctor_idchange (s : LayerState) (idv : Option String)
    (opts : Option CtorOpts) :
    (setId s none).1.id = none
    ∧ (∃ q, Action.localDispatch "idchange" (some q) ∈ (setId s none).2
        ∧ q.oldF = some s.id ∧ q.newF = some none)
    ∧ (∃ q, Action.localDispatch "idchange" (some q) ∈ (mkLayer idv opts).2.1
        ∧ q.newF = some idv) := by
  refine ⟨?_, ?_, ?_⟩
  · cases hm : s.map with
    | none => simp [setId, fire, fireStep, hm]
    | some m => simp [setId, fire, fireStep, hm]
  · cases hm : s.map with
    | none =>
        refine ⟨{ oldF := some s.id, newF := some none }, ?_, rfl, rfl⟩
        simp [setId, fire, fireStep, hm]
    | some m =>
        refine ⟨stampPayload { oldF := some s.id, newF := some none } "idchange", ?_, rfl, rfl⟩
        simp [setId, fire, fireStep, hm, stampPayload]
  · have hbase : (baseState opts).map = none := by
      cases opts <;> simp [baseState]
    have hmem : Action.localDispatch "idchange"
        (some { oldF := some (baseState opts).id, newF := some idv })
        ∈ (setId (baseState opts) idv).2 := by
      simp [setId, fire, fireStep, hbase]
    refine ⟨{ oldF := some (baseState opts).id, newF := some idv }, ?_, rfl⟩
    cases opts with
    | none => exact hmem
    | some o =>
        cases hmask : o.mask with
        | none =>
            have hred : (mkLayer idv (some o)).2.1 =
                (setId (baseState (some o)) idv).2
                  ++ (setZIndex (setId (baseState (some o)) idv).1 o.zIndex).2 := by
              simp [mkLayer, hmask]
            rw [hred]
            exact List.mem_append_left _ hmem
        | some mg =>
            have hred : (mkLayer idv (some o)).2.1 =
                (setId (baseState (some o)) idv).2
                  ++ (setZIndex (setId (baseState (some o)) idv).1 o.zIndex).2
                  ++ (setMask (setZIndex (setId (baseState (some o)) idv).1 o.zIndex).1 mg).2.1 := by
              simp [mkLayer, hmask]
            rw [hred]
            exact List.mem_append_left _ (List.mem_append_left _ hmem)

/-- Claim C5: setMask rejects any geometry that is not a point with
vector-marker styling, a polygon or a multi-polygon with the
invalid-mask error and mutates nothing in that case; an accepted mask
is bound to the layer, restyled fully invisible through a restyle
call that differs for points versus polygons, and stored both live
and serialized. -/
theorem setMask_spec (s : LayerState) (m : MaskGeom) :
    (acceptedMask m = false → setMask s m = (s, [], some JsErr.invalidMask))
    ∧ (acceptedMask m = true →
        setMask s m =
          ({ s with mask := some (restyledMask m), optMask := some (restyledMask m) },
            [Action.maskBindLayer,
             if m.gtype == "Point" then Action.maskUpdateSymbol else Action.maskSetSymbol]
             ++ maskRedraw { s with mask := some (restyledMask m), optMask := some (restyledMask m) },
            none))
    ∧ (restyledMask m).boundLayer = true
    ∧ (m.gtype = "Point" →
        (restyledMask m).markerLineColor = some "rgba(0, 0, 0, 0)"
        ∧ (restyledMask m).markerFillOpacity = some 0)
    ∧ (m.gtype ≠ "Point" →
        (restyledMask m).lineColor = some "rgba(0, 0, 0, 0)"
        ∧ (restyledMask m).polygonOpacity = some 0) := by
  refine ⟨?_, ?_, ?_, ?_, ?_⟩
  · intro h; simp [setMask, h]
  · intro h; simp [setMask, h]
  · by_cases hp : m.gtype == "Point" <;> simp [restyledMask, hp]
  · intro hp
    have : m.gtype == "Point" := by simp [hp]
    simp [restyledMask, this]
  · intro hp
    have : ¬ (m.gtype == "Point") := by simpa using hp
    simp [restyledMask, this]

/-- Closed witness for setMask_spec: a plain line string geometry is
rejected without mutation, a polygon is stored restyled. -/
theorem setMask_spec_witness :
    setMask {} { gtype := "LineString" } = ({}, [], some JsErr.invalidMask)
    ∧ setMask {} { gtype := "Polygon" } =
        ({ mask := some (restyledMask { gtype := "Polygon" }),
           optMask := some (restyledMask { gtype := "Polygon" }) },
          [Action.maskBindLayer, Action.maskSetSymbol], none) := by
  constructor
  · exact (setMask_spec {} { gtype := "LineString" }).1 (by decide)
  · have h := (setMask_spec {} { gtype := "Polygon" }).2.1 (by decide)
    rw [h]
    decide

/-- getCollisionIndex (lines 489-501): with collisionScope layer,
lazily create and cache a dedicated index on first request and return
the cached instance afterwards; with any other scope return nil when
detached and the shared index of the map when attached. -/
def getCollisionIndex (s : LayerState) : Option CollisionIndex × LayerState :=
  if s.collisionScope = "layer" then
    match s.collisionIndex with
    | some ci => (some ci, s)
    | none =>
        let ci : CollisionIndex := { uid := s.freshUid, items := [] }
        (some ci, { s with collisionIndex := some ci, freshUid := s.freshUid + 1 })
  else
    match s.map with
    | none => (none, s)
    | some m => (some m.sharedCollision, s)

/-- clearCollisionIndex (lines 507-513): empty the dedicated index
only when the scope is layer and the index exists; never touch the
map or the shared index. -/
def clearCollisionIndex (s : LayerState) : LayerState :=
  if s.collisionScope = "layer" then
    match s.collisionIndex with
    | some ci => { s with collisionIndex := some { uid := ci.uid, items := [] } }
    | none => s
  else s

/-- Claim C7: with collisionScope layer, getCollisionIndex creates a
dedicated index on the first call and every later call returns the
identical cached instance, so a dedicated index exists iff the scope
is layer and it was requested at least once; with another scope it
returns nil when detached and the shared map index when attached,
never creating a dedicated one; clearCollisionIndex empties the
dedicated index without discarding the instance only when the scope
is layer and one exists, and never touches the map. -/
theorem collision_index_spec (s : LayerState) :
    (s.collisionScope = "layer" → s.collisionIndex = none →
        getCollisionIndex s =
          (some { uid := s.freshUid, items := [] },
           { s with collisionIndex := some { uid := s.freshUid, items := [] },
                    freshUid := s.freshUid + 1 }))
    ∧ (∀ ci, s.collisionScope = "layer" → s.collisionIndex = some ci →
        getCollisionIndex s = (some ci, s))
    ∧ (s.collisionScope = "layer" →
        getCollisionIndex (getCollisionIndex s).2 =
          ((getCollisionIndex s).1, (getCollisionIndex s).2))
    ∧ (s.collisionScope ≠ "layer" →
        getCollisionIndex s = (s.map.map MapView.sharedCollision, s))
    ∧ (s.collisionIndex = none →
        (((getCollisionIndex s).2.collisionIndex).isSome ↔ s.collisionScope = "layer"))
    ∧ (∀ ci, s.collisionScope = "layer" → s.collisionIndex = some ci →
        clearCollisionIndex s = { s with collisionIndex := some { uid := ci.uid, items := [] } })
    ∧ (s.collisionScope = "layer" → s.collisionIndex = none → clearCollisionIndex s = s)
    ∧ (s.collisionScope ≠ "layer" → clearCollisionIndex s = s)
    ∧ (clearCollisionIndex s).map = s.map := by
  refine ⟨?_, ?_, ?_, ?_, ?_, ?_, ?_, ?_, ?_⟩
  · intro hs hc; simp [getCollisionIndex, hs, hc]
  · intro ci hs hc; simp [getCollisionIndex, hs, hc]
  · intro hs
    cases hc : s.collisionIndex with
    | some ci => simp [getCollisionIndex, hs, hc]
    | none => simp [getCollisionIndex, hs, hc]
  · intro hs
    cases hm : s.map with
    | none => simp [getCollisionIndex, hs, hm]
    | some m => simp [getCollisionIndex, hs, hm]
  · intro hc
    by_cases hs : s.collisionScope = "layer"
    · simp [getCollisionIndex, hs, hc]
    · cases hm : s.map with
      | none => simp [getCollisionIndex, hs, hm, hc]
      | some m => simp [getCollisionIndex, hs, hm, hc]
  · intro ci hs hc; simp [clearCollisionIndex, hs, hc]
  · intro hs hc; simp [clearCollisionIndex, hs, hc]
  · intro hs; simp [clearCollisionIndex, hs]
  · by_cases hs : s.collisionScope = "layer"
    · cases hc : s.collisionIndex with
      | some ci => simp [clearCollisionIndex, hs, hc]
      | none => simp [clearCollisionIndex, hs, hc]
    · simp [clearCollisionIndex, hs]

/-- Closed witness for collision_index_spec: on a fresh layer the
first call creates the dedicated index, the second returns the
identical instance, and clearing keeps the instance while emptying
it. -/
theorem collision_index_spec_witness :
    getCollisionIndex {} =
      (some { uid := 0, items := [] },
       { collisionIndex := some { uid := 0, items := [] }, freshUid := 1 })
    ∧ getCollisionIndex { collisionIndex := some { uid := 0, items := [] }, freshUid := 1 } =
        (some { uid := 0, items := [] },
         { collisionIndex := some { uid := 0, items := [] }, freshUid := 1 })
    ∧ clearCollisionIndex { collisionIndex := some { uid := 0, items := [5, 7] }, freshUid := 1 } =
        { collisionIndex := some { uid := 0, items := [] }, freshUid := 1 } := by
  refine ⟨?_, ?_, ?_⟩
  · have h := (collision_index_spec {}).1 rfl rfl
    rw [h]
  · have h := (collision_index_spec
      { collisionIndex := some { uid := 0, items := [] }, freshUid := 1 }).2.1
      { uid := 0, items := [] } rfl rfl
    rw [h]
  · have h := (collision_index_spec
      { collisionIndex := some { uid := 0, items := [5, 7] }, freshUid := 1 }).2.2.2.2.2.1
      { uid := 0, items := [5, 7] } rfl rfl
    rw [h]

/-- Renderer registry of the layer class (the Renderable mixin):
whether the class exposes getRendererClass at all, which kinds
resolve to an implementation, and properties of the instantiated
renderer that Layer.js branches on. -/
structure RendererRegistry where
  hasCapability : Bool := true
  resolves : String → Bool
  isCanvas : String → Bool
  hasOnAdd : String → Bool := fun _ => true
  hasSetToRedraw : String → Bool := fun _ => true

/-- isCanvasRender (lines 245-248): a renderer exists and is a
CanvasRenderer. -/
def isCanvasRender (s : LayerState) : Bool :=
  s.hasRenderer && s.rendererIsCanvas

/-- initRenderer (lines 559-590): return silently when the class has
no getRendererClass capability; throw the unknown-renderer error
naming the configured kind and the layer id when the kind does not
resolve; otherwise instantiate the renderer, push the current
z-index, wire the renderer events, call its optional onAdd, call
onRendererCreate and fire renderercreate. -/
def initRenderer (reg : RendererRegistry) (s : LayerState) :
    LayerState × List Action × Option JsErr :=
  let kind := s.rendererKind
  if ¬ reg.hasCapability then (s, [], none)
  else if ¬ reg.resolves kind then
    (s, [], some (JsErr.unknownRenderer kind s.id))
  else
    let s1 := { s with hasRenderer := true,
                       rendererIsCanvas := reg.isCanvas kind,
                       rendererHasSetToRedraw := reg.hasSetToRedraw kind }
    let t1 := [Action.rendererSetZIndex (some (getZIndexVal s1)),
               Action.switchRendererEvents]
              ++ (if reg.hasOnAdd kind then [Action.rendererOnAdd] else [])
              ++ [Action.hookOnRendererCreate]
    let r := fire s1 "renderercreate" (some { rendererRef := true })
    (r.1, t1 ++ r.2, none)

/-- load (lines 88-104): return self untouched when detached; call
the onLoad hook and stop when it returns false; otherwise run
initRenderer, whose unknown-renderer error aborts the sequence; on
success push the z-index to the renderer (getZIndex never returns
nil, so the nil guard never skips), request a render for non-canvas
renderers, and call onLoadEnd last.  A load that reaches the z-index
push without any renderer (capability absent) hits a TypeError. -/
def load (reg : RendererRegistry) (onLoadResult : Bool) (s : LayerState) :
    LayerState × List Action × Option JsErr :=
  match s.map with
  | none => (s, [], none)
  | some _ =>
      let t0 := [Action.hookOnLoad onLoadResult]
      if ¬ onLoadResult then (s, t0, none)
      else
        let r1 := initRenderer reg s
        match r1.2.2 with
        | some err => (r1.1, t0 ++ r1.2.1, some err)
        | none =>
            if r1.1.hasRenderer then
              let z := getZIndexVal r1.1
              (r1.1,
                t0 ++ r1.2.1
                  ++ [Action.rendererSetZIndex (some z)]
                  ++ (if ¬ isCanvasRender r1.1 then [Action.rendererRender] else [])
                  ++ [Action.hookOnLoadEnd],
                none)
            else (r1.1, t0 ++ r1.2.1, some JsErr.typeError)

/-- Claim C4: load returns the layer and is a no-op when detached;
when attached, a false onLoad aborts with no renderer and no
onLoadEnd; an unregistered renderer kind aborts with the
unknown-renderer error naming the kind and the layer id, with no
renderer attached and no further hooks; on success the z-index is
pushed to the renderer, a render is requested exactly for non-canvas
renderer kinds, and onLoadEnd runs last. -/
theorem load_spec (reg : RendererRegistry) (b : Bool) (s : LayerState) :
    (s.map = none → load reg b s = (s, [], none))
    ∧ (s.map.isSome → b = false →
        load reg b s = (s, [Action.hookOnLoad false], none))
    ∧ (s.map.isSome → b = true → reg.hasCapability = true →
        reg.resolves s.rendererKind = false →
        load reg b s =
          (s, [Action.hookOnLoad true],
           some (JsErr.unknownRenderer s.rendererKind s.id)))
    ∧ (s.map.isSome → b = true → reg.hasCapability = true →
        reg.resolves s.rendererKind = true →
        (load reg b s).2.2 = none
        ∧ (load reg b s).1.hasRenderer = true
        ∧ (load reg b s).2.1.getLast? = some Action.hookOnLoadEnd
        ∧ Action.rendererSetZIndex (some (s.zIndex.getD 0)) ∈ (load reg b s).2.1
        ∧ (Action.rendererRender ∈ (load reg b s).2.1 ↔ reg.isCanvas s.rendererKind = false)) := by
  refine ⟨?_, ?_, ?_, ?_⟩
  · intro hm; simp [load, hm]
  · rintro hm rfl
    cases hmv : s.map with
    | none => rw [hmv] at hm; exact absurd hm (by simp)
    | some m => simp [load, hmv]
  · rintro hm rfl hc hr
    cases hmv : s.map with
    | none => rw [hmv] at hm; exact absurd hm (by simp)
    | some m => simp [load, initRenderer, hmv, hc, hr]
  · rintro hm rfl hc hr
    cases hmv : s.map with
    | none => rw [hmv] at hm; exact absurd hm (by simp)
    | some m =>
        have hinit : initRenderer reg s =
            ({ s with hasRenderer := true,
                      rendererIsCanvas := reg.isCanvas s.rendererKind,
                      rendererHasSetToRedraw := reg.hasSetToRedraw s.rendererKind },
              ([Action.rendererSetZIndex (some (getZIndexVal s)),
                Action.switchRendererEvents]
                ++ (if reg.hasOnAdd s.rendererKind then [Action.rendererOnAdd] else [])
                ++ [Action.hookOnRendererCreate])
                ++ [Action.forwardToMap (stampPayload { rendererRef := true } "renderercreate"),
                    Action.localDispatch "renderercreate"
                      (some (stampPayload { rendererRef := true } "renderercreate"))],
              none) := by
          simp [initRenderer, hc, hr, fire, fireStep, hmv, getZIndexVal]
        have hload : load reg true s =
            ((initRenderer reg s).1,
              [Action.hookOnLoad true] ++ (initRenderer reg s).2.1
                ++ [Action.rendererSetZIndex (some (getZIndexVal (initRenderer reg s).1))]
                ++ (if ¬ isCanvasRender (initRenderer reg s).1 then [Action.rendererRender] else [])
                ++ [Action.hookOnLoadEnd],
              none) := by
          rw [load]
          simp only [hmv]
          rw [hinit]
          simp [isCanvasRender]
        refine ⟨by rw [hload], by rw [hload, hinit], ?_, ?_, ?_⟩
        · rw [hload]
          exact List.getLast?_concat _
        · rw [hload, hinit]
          simp [getZIndexVal]
        · rw [hload, hinit]
          constructor
          · intro hmem
            simp only [isCanvasRender] at hmem ⊢
            by_cases hcv : reg.isCanvas s.rendererKind
            · exfalso
              revert hmem
              by_cases ho : reg.hasOnAdd s.rendererKind <;> simp [hcv, ho]
            · simp [hcv]
          · intro hcv
            simp only [isCanvasRender]
            by_cases ho : reg.hasOnAdd s.rendererKind <;> simp [hcv, ho]

/-- Registry used by the closed load witnesses: only the canvas kind
resolves, and it instantiates a CanvasRenderer. -/
def canvasOnlyReg : RendererRegistry :=
  { resolves := fun k => k == "canvas", isCanvas := fun k => k == "canvas" }

/-- Attached layer used by the closed load witnesses. -/
def attachedLayer : LayerState := { map := some {} }

/-- Closed witness for load_spec: a detached load is a no-op, and an
attached load with an unregistered kind fails with the
unknown-renderer error naming kind and id. -/
theorem load_spec_witness :
    load canvasOnlyReg true {} = ({}, [], none)
    ∧ load canvasOnlyReg true { attachedLayer with rendererKind := "gl", id := some "L1" } =
        ({ attachedLayer with rendererKind := "gl", id := some "L1" },
          [Action.hookOnLoad true],
          some (JsErr.unknownRenderer "gl" (some "L1")))
    ∧ (load canvasOnlyReg true attachedLayer).2.1.getLast? = some Action.hookOnLoadEnd := by
  refine ⟨?_, ?_, ?_⟩
  · exact (load_spec canvasOnlyReg true {}).1 rfl
  · exact (load_spec canvasOnlyReg true
      { attachedLayer with rendererKind := "gl", id := some "L1" }).2.2.1
      (by decide) rfl rfl (by decide)
  · exact ((load_spec canvasOnlyReg true attachedLayer).2.2.2
      (by decide) rfl rfl (by decide)).2.2.1

/-- Effective z-index of a collection entry, matching getZIndex. -/
def zOf (r : LayerRef) : Int := r.z.getD 0

/-- Comparison used to keep the map layer collection z-ordered. -/
def zle (a b : LayerRef) : Prop := zOf a ≤ zOf b

instance : DecidableRel zle := fun a b => inferInstanceAs (Decidable (zOf a ≤ zOf b))

instance : IsTotal LayerRef zle := ⟨fun a b => Int.le_total (zOf a) (zOf b)⟩

instance : IsTrans LayerRef zle := ⟨fun _ _ _ h1 h2 => le_trans h1 h2⟩

/-- Modelled from the spec: the sortLayersByZIndex operation of the
map (its source is not part of this excerpt) re-sorts the layer
collection by z-index, ties broken by original insertion order, which
a stable insertion sort realizes. -/
def sortLayersByZIndex (l : List LayerRef) : List LayerRef :=
  List.insertionSort zle l

/-- Effect of the setZIndex call inside bringToFront and bringToBack
on the collection: the entry of this layer gets the new z-index. -/
def raiseZ (selfId : Nat) (newZ : Int) (r : LayerRef) : LayerRef :=
  if r.lid = selfId then { r with z := some newZ } else r

/-- bringToFront (lines 274-286) acting on the map layer collection:
a no-op on an empty collection, on a sole member and when the topmost
entry already is this layer; otherwise this layer gets a z-index one
more than the current top and the collection re-sorts (the setZIndex
call inside also fires events; this model follows the collection
state, which the claim quantifies over). -/
def bringToFront (l : List LayerRef) (selfId : Nat) : List LayerRef :=
  match l.getLast? with
  | none => l
  | some top =>
      if l.length = 1 ∨ top.lid = selfId then l
      else sortLayersByZIndex (l.map (raiseZ selfId (zOf top + 1)))

/-- bringToBack (lines 292-304), symmetric on the bottom entry. -/
def bringToBack (l : List LayerRef) (selfId : Nat) : List LayerRef :=
  match l.head? with
  | none => l
  | some bottom =>
      if l.length = 1 ∨ bottom.lid = selfId then l
      else sortLayersByZIndex (l.map (raiseZ selfId (zOf bottom - 1)))

/-- getLayerList (lines 616-621): the map collection, empty when
detached. -/
def layerList (s : LayerState) : List LayerRef :=
  match s.map with
  | none => []
  | some m => m.layers

/-- Helper: the last entry of a list is a member. -/
theorem mem_of_getLast?_eq : ∀ {l : List LayerRef} {a : LayerRef},
    l.getLast? = some a → a ∈ l := by
  intro l
  induction l with
  | nil => intro a h; simp at h
  | cons x t ih =>
      intro a h
      cases t with
      | nil => simp at h; simp [h]
      | cons y u =>
          rw [List.getLast?_cons_cons] at h
          exact List.mem_cons_of_mem _ (ih h)

/-- Helper: in a z-ordered list every entry is at most the last. -/
theorem zle_getLast_of_sorted : ∀ {l : List LayerRef}, List.Sorted zle l →
    ∀ {top}, l.getLast? = some top → ∀ {x}, x ∈ l → zOf x ≤ zOf top := by
  intro l
  induction l with
  | nil => intro _ top h; simp at h
  | cons a t ih =>
      intro hs top hlast x hx
      rw [List.sorted_cons] at hs
      cases t with
      | nil =>
          simp at hlast
          rcases List.mem_singleton.mp hx with rfl
          rw [hlast]
      | cons y u =>
          rw [List.getLast?_cons_cons] at hlast
          rcases List.mem_cons.mp hx with rfl | hx2
          · exact hs.1 top (mem_of_getLast?_eq hlast)
          · exact ih hs.2 hlast hx2

/-- Helper: raising the z-index of this layer one past the sorted
top makes it the unique maximum, so after the re-sort the last entry
carries this layer identity. -/
theorem raised_sort_last (l : List LayerRef) (selfId : Nat) (top : LayerRef)
    (hs : List.Sorted zle l) (hlast : l.getLast? = some top)
    (hmem : selfId ∈ l.map LayerRef.lid) :
    ∃ t2, (sortLayersByZIndex (l.map (raiseZ selfId (zOf top + 1)))).getLast? = some t2
      ∧ t2.lid = selfId := by
  have hlne : l ≠ [] := by
    intro h; subst h; simp at hmem
  have hl2ne : sortLayersByZIndex (l.map (raiseZ selfId (zOf top + 1))) ≠ [] := by
    intro h
    have := congrArg List.length h
    rw [sortLayersByZIndex, List.length_insertionSort, List.length_map] at this
    exact hlne (List.length_eq_zero.mp this)
  have hsorted2 : List.Sorted zle (sortLayersByZIndex (l.map (raiseZ selfId (zOf top + 1)))) :=
    List.sorted_insertionSort zle _
  obtain ⟨e, hel, helid⟩ := List.mem_map.mp hmem
  have he2 : { e with z := some (zOf top + 1) } ∈
      sortLayersByZIndex (l.map (raiseZ selfId (zOf top + 1))) := by
    rw [sortLayersByZIndex]
    refine (List.mem_insertionSort zle).mpr ?_
    have : raiseZ selfId (zOf top + 1) e = { e with z := some (zOf top + 1) } := by
      rw [raiseZ, if_pos helid]
    rw [← this]
    exact List.mem_map_of_mem _ hel
  cases hlast2 : (sortLayersByZIndex (l.map (raiseZ selfId (zOf top + 1)))).getLast? with
  | none =>
      rw [List.getLast?_eq_none_iff] at hlast2
      exact absurd hlast2 hl2ne
  | some t2 =>
      refine ⟨t2, rfl, ?_⟩
      have ht2u : t2 ∈ l.map (raiseZ selfId (zOf top + 1)) := by
        have := mem_of_getLast?_eq hlast2
        rw [sortLayersByZIndex] at this
        exact (List.mem_insertionSort zle).mp this
      obtain ⟨r, hrl, hrt⟩ := List.mem_map.mp ht2u
      by_cases hr : r.lid = selfId
      · rw [raiseZ, if_pos hr] at hrt
        rw [← hrt]
        exact hr
      · exfalso
        rw [raiseZ, if_neg hr] at hrt
        have h1 : zOf r ≤ zOf top := zle_getLast_of_sorted hs hlast hrl
        have h2 : zOf { e with z := some (zOf top + 1) } ≤ zOf t2 :=
          zle_getLast_of_sorted hsorted2 hlast2 he2
        have h3 : zOf { e with z := some (zOf top + 1) } = zOf top + 1 := rfl
        rw [h3, ← hrt] at h2
        omega

/-- Claim C8: on a z-ordered collection that contains this layer
under a unique identity, bringToFront is idempotent, the layer is
topmost after a call, a layer already topmost is a no-op and a sole
member is a no-op. -/
theorem bringToFront_idempotent (l : List LayerRef) (selfId : Nat)
    (hs : List.Sorted zle l)
    (hn : (l.map LayerRef.lid).Nodup)
    (hmem : selfId ∈ l.map LayerRef.lid) :
    bringToFront (bringToFront l selfId) selfId = bringToFront l selfId
    ∧ ((bringToFront l selfId).getLast?).map LayerRef.lid = some selfId
    ∧ (∀ top, l.getLast? = some top → top.lid = selfId → bringToFront l selfId = l)
    ∧ (l.length = 1 → bringToFront l selfId = l) := by
  have hlne : l ≠ [] := by
    intro h; subst h; simp at hmem
  cases hlast : l.getLast? with
  | none =>
      rw [List.getLast?_eq_none_iff] at hlast
      exact absurd hlast hlne
  | some top =>
      by_cases hcond : l.length = 1 ∨ top.lid = selfId
      · have hid : bringToFront l selfId = l := by
          simp only [bringToFront, hlast]
          rw [if_pos hcond]
        have htoplid : top.lid = selfId := by
          rcases hcond with hlen | hlid
          · rcases List.length_eq_one.mp hlen with ⟨a, rfl⟩
            simp at hlast hmem
            subst hlast
            exact hmem.symm
          · exact hlid
        refine ⟨by rw [hid, hid], ?_, fun _ _ _ => hid, fun _ => hid⟩
        rw [hid, hlast]
        simp [htoplid]
      · have hbf : bringToFront l selfId =
            sortLayersByZIndex (l.map (raiseZ selfId (zOf top + 1))) := by
          simp only [bringToFront, hlast]
          rw [if_neg hcond]
        obtain ⟨t2, hlast2, ht2lid⟩ := raised_sort_last l selfId top hs hlast hmem
        have hsecond : bringToFront (bringToFront l selfId) selfId = bringToFront l selfId := by
          rw [hbf]
          simp only [bringToFront, hlast2]
          rw [if_pos (Or.inr ht2lid)]
        push_neg at hcond
        refine ⟨hsecond, ?_, ?_, ?_⟩
        · rw [hbf, hlast2]
          simp [ht2lid]
        · intro top2 hl2 hl2id
          injection hl2 with h2
          subst h2
          exact absurd hl2id hcond.2
        · intro h1; exact absurd h1 hcond.1

/-- Closed witness for bringToFront_idempotent: a three-layer sorted
collection where layer 1 sits in the middle; one call lifts it past
the top entry, the second call is a no-op. -/
theorem bringToFront_idempotent_witness :
    bringToFront [⟨0, some 0⟩, ⟨1, some 1⟩, ⟨2, some 2⟩] 1 =
      [⟨0, some 0⟩, ⟨2, some 2⟩, ⟨1, some 3⟩]
    ∧ bringToFront (bringToFront [⟨0, some 0⟩, ⟨1, some 1⟩, ⟨2, some 2⟩] 1) 1 =
        bringToFront [⟨0, some 0⟩, ⟨1, some 1⟩, ⟨2, some 2⟩] 1 := by
  constructor
  · decide
  · exact (bringToFront_idempotent [⟨0, some 0⟩, ⟨1, some 1⟩, ⟨2, some 2⟩] 1
      (by decide) (by decide) (by decide)).1

/-- Helper: every trace entry of fire is a forward to the map or a
local dispatch; fire never touches the renderer. -/
theorem fire_trace_shape (s : LayerState) (ev : String) (p : Option Payload) :
    ((fire s ev p).2.all fun a =>
        match a with
        | Action.forwardToMap _ => true
        | Action.localDispatch _ _ => true
        | _ => false) = true := by
  by_cases hsh : ev = "show" ∨ ev = "hide" <;>
    cases hm : s.map <;>
      by_cases hll : ev = "layerload" <;>
        simp [fire, fireStep, hm, hsh, hll]

/-- Helper: an action of another constructor is never in a fire
trace. -/
theorem notMem_fire_trace (s : LayerState) (ev : String) (p : Option Payload)
    (a : Action)
    (hshape : (match a with
               | Action.forwardToMap _ => true
               | Action.localDispatch _ _ => true
               | _ => false) = false) :
    a ∉ (fire s ev p).2 := by
  intro hmem
  have h := List.all_eq_true.mp (fire_trace_shape s ev p) a hmem
  rw [hshape] at h
  exact Bool.false_ne_true h

/-- Claim C9: the operations outside setMask and load never raise on
a missing precondition: load on a detached layer returns the layer
with no error and no effect, the layer list of a detached layer is
empty so bringToFront and bringToBack are no-ops, removeMask with no
stored mask leaves both mask slots empty and completes, and show,
hide and setZIndex without a renderer complete without ever touching
a renderer. -/
theorem defensive_noops (s : LayerState) (reg : RendererRegistry) (b : Bool)
    (i : Nat) (z : Option Int) :
    (s.map = none → load reg b s = (s, [], none))
    ∧ (s.map = none → layerList s = [])
    ∧ bringToFront [] i = []
    ∧ bringToBack [] i = []
    ∧ (s.mask = none →
        (removeMask s).1.mask = none ∧ (removeMask s).1.optMask = none)
    ∧ (s.hasRenderer = false →
        Action.rendererShow ∉ (showLayer s).2 ∧ Action.rendererHide ∉ (hideLayer s).2)
    ∧ (s.hasRenderer = false →
        (setZIndex s z).1.zIndex = z
        ∧ ∀ w, Action.rendererSetZIndex w ∉ (setZIndex s z).2) := by
  refine ⟨?_, ?_, ?_, ?_, ?_, ?_, ?_⟩
  · intro hm; simp [load, hm]
  · intro hm; simp [layerList, hm]
  · rfl
  · rfl
  · intro _; simp [removeMask]
  · intro hr
    constructor
    · by_cases hv : s.visible = some true
      · simp [showLayer, hv]
      · simp only [showLayer, hv, if_false, hr]
        intro hmem
        simp only [Bool.false_and, if_false, ite_false, Bool.false_eq_true] at hmem
        simp only [List.mem_append] at hmem
        rcases hmem with hmem | hmem
        · simp at hmem
        · exact notMem_fire_trace _ "show" none _ rfl hmem
    · by_cases hv : s.visible = some true
      · simp only [hideLayer, hv, if_true, hr]
        intro hmem
        simp only [Bool.false_and, if_false, ite_false, Bool.false_eq_true] at hmem
        simp only [List.mem_append] at hmem
        rcases hmem with hmem | hmem
        · simp at hmem
        · exact notMem_fire_trace _ "hide" none _ rfl hmem
      · simp [hideLayer, hv]
  · intro hr
    constructor
    · simp [setZIndex, fire, fireStep]
      cases hm : s.map <;> simp [hm]
    · intro w hmem
      simp only [setZIndex, hr, List.mem_append] at hmem
      rcases hmem with hmem | hmem
      · rcases hmem with hmem | hmem
        · cases hm : s.map <;> rw [hm] at hmem <;> simp at hmem
        · simp at hmem
      · exact notMem_fire_trace _ "setzindex" _ _ rfl hmem

/-- Closed witness for defensive_noops: a fresh detached layer loads
as a no-op, removeMask leaves nothing, show without a renderer never
calls one, and setZIndex stores its value with no renderer push. -/
theorem defensive_noops_witness :
    load canvasOnlyReg true {} = ({}, [], none)
    ∧ (removeMask {}).1.mask = none
    ∧ Action.rendererShow ∉ (showLayer { visible := some false }).2
    ∧ (setZIndex {} (some 3)).1.zIndex = some 3 := by
  refine ⟨(defensive_noops {} canvasOnlyReg true 0 (some 3)).1 rfl,
    ((defensive_noops {} canvasOnlyReg true 0 (some 3)).2.2.2.2.1 rfl).1,
    ((defensive_noops { visible := some false } canvasOnlyReg true 0 (some 3)).2.2.2.2.2.1 rfl).1,
    ((defensive_noops {} canvasOnlyReg true 0 (some 3)).2.2.2.2.2.2 rfl).1⟩

end Maptalks
